import Mathlib

/-!
Shallow embedding of the ghostcloud deployment client
(`src/lib/ghostcloud.ts` and the Dashboard component), covering message
construction, the three write operations (create / update / remove
deployment), the metas query, cache invalidation, URL composition and
client-side pagination.

External effects (the web3-auth store, the RPC connection, the signing
broadcast and the remote response) are modelled by explicit environment
records; each operation returns its `Except` outcome together with a
trace recording which external calls were made and how many times the
"metas" cache key was invalidated.
-/

namespace Ghostcloud

/-- A browser `File` attachment, reduced to its byte content
(all the client ever reads from it is `fileToArrayBuffer`). -/
structure File where
  bytes : List Nat
deriving Repr, DecidableEq

/-- Modelled from the spec: `src/helpers/files.ts` is not in scope;
the spec fixes its meaning as "payload content is the file's raw bytes". -/
def fileToArrayBuffer (f : File) : List Nat :=
  f.bytes

/-- Modelled from the spec: the `DeploymentData` form record defined in
`src/components/create-deployment` (not in scope); its shape is fixed by
the spec's DeploymentRequest {name, description, domain, memo, optional file}
and by every use site in `src/lib/ghostcloud.ts`. -/
structure DeploymentData where
  name : String
  description : String
  domain : String
  memo : String
  file : Option File
deriving Repr, DecidableEq

/-- `ArchiveType` enum of the ghostcloud proto (`Zip` is the only
archive type the client ever produces). -/
inductive ArchiveType where
  | Zip
deriving Repr, DecidableEq

/-- `Archive.fromPartial({type, content})`. -/
structure Archive where
  type : ArchiveType
  content : List Nat
deriving Repr, DecidableEq

/-- `Payload.fromPartial({archive})`. -/
structure Payload where
  archive : Archive
deriving Repr, DecidableEq

/-- The deployment metadata record {creator, name, description, domain}. -/
structure DeploymentMeta where
  creator : String
  name : String
  description : String
  domain : String
deriving Repr, DecidableEq

/-- The message built by `createDeployment({meta, payload})`. -/
structure MsgCreateDeployment where
  meta : DeploymentMeta
  payload : Option Payload
deriving Repr, DecidableEq

/-- The message built by `updateDeployment({meta, payload})`. -/
structure MsgUpdateDeployment where
  meta : DeploymentMeta
  payload : Option Payload
deriving Repr, DecidableEq

/-- The message built by `removeDeployment({creator, name})`. -/
structure MsgRemoveDeployment where
  creator : String
  name : String
deriving Repr, DecidableEq

/-- `createDeploymentMsg(data, creator)` from `src/lib/ghostcloud.ts`:
the payload is attached exactly when `data.file` is present, as a ZIP
archive of the file's bytes; the meta carries the creator argument and
the request's name/description/domain. -/
def createDeploymentMsg (data : DeploymentData) (creator : String) :
    MsgCreateDeployment :=
  let payload : Option Payload :=
    data.file.map fun f =>
      { archive := { type := ArchiveType.Zip, content := fileToArrayBuffer f } }
  { meta :=
      { creator := creator
        name := data.name
        description := data.description
        domain := data.domain }
    payload := payload }

/-- `updateDeploymentMsg(data, creator)` from `src/lib/ghostcloud.ts`:
identical construction to `createDeploymentMsg` but producing an
update message. -/
def updateDeploymentMsg (data : DeploymentData) (creator : String) :
    MsgUpdateDeployment :=
  let payload : Option Payload :=
    data.file.map fun f =>
      { archive := { type := ArchiveType.Zip, content := fileToArrayBuffer f } }
  { meta :=
      { creator := creator
        name := data.name
        description := data.description
        domain := data.domain }
    payload := payload }

/-- `removeDeploymentMsg(name, creator)` from `src/lib/ghostcloud.ts`. -/
def removeDeploymentMsg (name : String) (creator : String) :
    MsgRemoveDeployment :=
  { creator := creator, name := name }

/-- The `DeliverTxResponse` returned by `client.signAndBroadcast`:
the fields the client inspects (`code`, `rawLog`) plus the
ledger-assigned transaction hash it passes back on success. -/
structure TxResponse where
  code : Nat
  rawLog : String
  transactionHash : String
deriving Repr, DecidableEq

/-- A failure of a write operation: either an `Error` thrown by the
client code itself (carrying its message string), or a failure
propagated from the RPC client / transport. -/
inductive TxError where
  | thrown (msg : String)
  | external
deriving Repr, DecidableEq

/-- The external world a write operation runs against:
`address` is what `store.getAddress()` resolves to ("" models an
empty/undefined address), `connectOk` tells whether creating the signing
RPC client and broadcasting succeed at the transport level, and
`response` is the remote response delivered when the broadcast goes
through. -/
structure WriteEnv where
  address : String
  connectOk : Bool
  response : TxResponse
deriving Repr, DecidableEq

/-- Trace of the external calls a mutation function performed:
whether `createGhostcloudRpcClient` was invoked (the signing connection),
and whether `signAndBroadcast` was invoked. -/
structure MutTrace where
  connAttempted : Bool
  broadcasted : Bool
deriving Repr, DecidableEq

/-- The `create` mutation function of `useCreateDeployment`:
null data and empty creator fail up front with the thrown messages of
the source; then the signing client is created and the message
broadcast; a truthy (non-zero) response code throws the
"Deployment creation failed" message; code zero returns the response. -/
def create (env : WriteEnv) (data : Option DeploymentData) :
    Except TxError TxResponse × MutTrace :=
  match data with
  | none =>
      (Except.error (TxError.thrown ("Deployment data is empty.")),
       { connAttempted := false, broadcasted := false })
  | some _ =>
      if env.address = "" then
        (Except.error (TxError.thrown ("Creator address is empty.")),
         { connAttempted := false, broadcasted := false })
      else if env.connectOk = false then
        (Except.error TxError.external,
         { connAttempted := true, broadcasted := false })
      else if env.response.code ≠ 0 then
        (Except.error (TxError.thrown
            ("Deployment creation failed with error code: "
              ++ toString env.response.code
              ++ ". Raw log: " ++ env.response.rawLog)),
         { connAttempted := true, broadcasted := true })
      else
        (Except.ok env.response,
         { connAttempted := true, broadcasted := true })

/-- The `update` mutation function of `useUpdateDeployment`:
same stages as `create` but with the "Deployment update failed"
rejection message. -/
def update (env : WriteEnv) (data : Option DeploymentData) :
    Except TxError TxResponse × MutTrace :=
  match data with
  | none =>
      (Except.error (TxError.thrown ("Deployment data is empty.")),
       { connAttempted := false, broadcasted := false })
  | some _ =>
      if env.address = "" then
        (Except.error (TxError.thrown ("Creator address is empty.")),
         { connAttempted := false, broadcasted := false })
      else if env.connectOk = false then
        (Except.error TxError.external,
         { connAttempted := true, broadcasted := false })
      else if env.response.code ≠ 0 then
        (Except.error (TxError.thrown
            ("Deployment update failed with error code: "
              ++ toString env.response.code
              ++ ". Raw log: " ++ env.response.rawLog)),
         { connAttempted := true, broadcasted := true })
      else
        (Except.ok env.response,
         { connAttempted := true, broadcasted := true })

/-- The `remove` mutation function of `useRemoveDeployment`:
it takes a deployment name (no null check) and rejects non-zero codes
with the same "Deployment update failed" message string as `update`. -/
def remove (env : WriteEnv) (_name : String) :
    Except TxError TxResponse × MutTrace :=
  if env.address = "" then
    (Except.error (TxError.thrown ("Creator address is empty.")),
     { connAttempted := false, broadcasted := false })
  else if env.connectOk = false then
    (Except.error TxError.external,
     { connAttempted := true, broadcasted := false })
  else if env.response.code ≠ 0 then
    (Except.error (TxError.thrown
        ("Deployment update failed with error code: "
          ++ toString env.response.code
          ++ ". Raw log: " ++ env.response.rawLog)),
     { connAttempted := true, broadcasted := true })
  else
    (Except.ok env.response,
     { connAttempted := true, broadcasted := true })

/-- Outcome of running a write hook: the mutation result, its external
call trace, and the number of times `queryClient.invalidateQueries`
was called on the "metas" key. -/
structure WriteResult where
  result : Except TxError TxResponse
  trace : MutTrace
  invalidatedMetas : Nat
deriving Repr

/-- `useMutation({mutationFn, onSuccess})` with
`onSuccess: () => queryClient.invalidateQueries({queryKey: "metas"})`:
react-query fires `onSuccess` exactly once when the mutation function
resolves, and never when it throws. -/
def runWithMetasInvalidation (r : Except TxError TxResponse × MutTrace) :
    WriteResult :=
  match r with
  | (Except.ok v, t) =>
      { result := Except.ok v, trace := t, invalidatedMetas := 1 }
  | (Except.error e, t) =>
      { result := Except.error e, trace := t, invalidatedMetas := 0 }

/-- The mutation returned by `useCreateDeployment`. -/
def useCreateDeployment (env : WriteEnv) (data : Option DeploymentData) :
    WriteResult :=
  runWithMetasInvalidation (create env data)

/-- The mutation returned by `useUpdateDeployment`. -/
def useUpdateDeployment (env : WriteEnv) (data : Option DeploymentData) :
    WriteResult :=
  runWithMetasInvalidation (update env data)

/-- The mutation returned by `useRemoveDeployment`. -/
def useRemoveDeployment (env : WriteEnv) (name : String) :
    WriteResult :=
  runWithMetasInvalidation (remove env name)

/-- `Filter_Field` enum of the ghostcloud proto. -/
inductive Filter_Field where
  | UNSPECIFIED
  | CREATOR
deriving Repr, DecidableEq

/-- `Filter_Operator` enum of the ghostcloud proto. -/
inductive Filter_Operator where
  | UNSPECIFIED
  | EQUAL
deriving Repr, DecidableEq

/-- `Filter.fromPartial({field, operator, value})`. -/
structure Filter where
  field : Filter_Field
  operator : Filter_Operator
  value : String
deriving Repr, DecidableEq

/-- `QueryMetasRequest.fromPartial({filters})`. -/
structure QueryMetasRequest where
  filters : List Filter
deriving Repr, DecidableEq

/-- `QueryMetasResponse`: the list of deployment metadata records
(the Dashboard reads it as `metas.meta`). -/
structure QueryMetasResponse where
  meta : List DeploymentMeta
deriving Repr, DecidableEq

/-- Read-path failure: the remote query could not be executed. -/
inductive QueryError where
  | queryUnavailable
deriving Repr, DecidableEq

/-- The external world the metas query runs against: the resolved
address ("" models empty/undefined), whether the RPC query succeeds at
the transport level, and the response delivered when it does. -/
structure QueryEnv where
  address : String
  queryOk : Bool
  response : QueryMetasResponse
deriving Repr, DecidableEq

/-- Trace of the metas query: whether any RPC client was built and a
network request issued, and the request that was sent. -/
structure QueryTrace where
  networkCalled : Bool
  sentRequest : Option QueryMetasRequest
deriving Repr, DecidableEq

/-- The `list` query function of `useFetchMetas`: when the resolved
address is truthy it builds one CREATOR/EQUAL/address filter, wraps it
in a `QueryMetasRequest` and issues the RPC query; otherwise it falls
through and resolves with `undefined` (modelled `none`) without any
network activity. -/
def listMetas (env : QueryEnv) :
    Except QueryError (Option QueryMetasResponse) × QueryTrace :=
  if env.address = "" then
    (Except.ok none, { networkCalled := false, sentRequest := none })
  else
    let filter : Filter :=
      { field := Filter_Field.CREATOR
        operator := Filter_Operator.EQUAL
        value := env.address }
    let request : QueryMetasRequest := { filters := [filter] }
    if env.queryOk then
      (Except.ok (some env.response),
       { networkCalled := true, sentRequest := some request })
    else
      (Except.error QueryError.queryUnavailable,
       { networkCalled := true, sentRequest := some request })

/-- The URL scheme/domain configuration consumed from the environment
(`GHOSTCLOUD_URL_SCHEME` / `GHOSTCLOUD_URL_DOMAIN` in
`src/config/ghostcloud-chain`). -/
structure UrlConfig where
  urlScheme : String
  urlDomain : String
deriving Repr, DecidableEq

/-- `createUrl(name, address)` from the Dashboard component:
the template literal `${scheme}://${name}-${address}.${domain}`. -/
def createUrl (cfg : UrlConfig) (name : String) (address : String) :
    String :=
  cfg.urlScheme ++ "://" ++ name ++ "-" ++ address ++ "." ++ cfg.urlDomain

/-- Modelled from the spec: the paginated variant of `useFetchMetas`
consumed by the Dashboard (its `currentPage`/`pageCount`/`handlePageClick`
surface is not under `src/lib`); the spec fixes its policy as: the full
filtered result set is fetched once and paginated locally with a
client-side page-size constant. The total page count of a result set. -/
def totalPageCount (pageSize : Nat) (items : List DeploymentMeta) : Nat :=
  max 1 ((items.length + pageSize - 1) / pageSize)

/-- Modelled from the spec: the content of (1-based) page `p` of the
locally paginated result set. -/
def pageContent (pageSize : Nat) (items : List DeploymentMeta) (p : Nat) :
    List DeploymentMeta :=
  (items.drop ((p - 1) * pageSize)).take pageSize

/-- Modelled from the spec: `listDeployments(addr, page)` pagination —
the requested page index is clamped into `[1, totalPageCount]` and the
corresponding slice of the already-fetched result set is returned; a
total function, so out-of-range pages never raise. -/
def listDeploymentsPage (pageSize : Nat) (items : List DeploymentMeta)
    (page : Int) : List DeploymentMeta :=
  let total := totalPageCount pageSize items
  let clamped : Nat := (max 1 (min page (Int.ofNat total))).toNat
  pageContent pageSize items clamped

/-! ## Theorems -/

/-- C5: building a CreateDeployment message and reading back its meta
fields yields exactly the name, description and domain supplied in the
request and the creator supplied as argument. -/
theorem createDeploymentMsg_meta_lossless (d : DeploymentData)
    (creator : String) :
    (createDeploymentMsg d creator).meta.name = d.name
    ∧ (createDeploymentMsg d creator).meta.description = d.description
    ∧ (createDeploymentMsg d creator).meta.domain = d.domain
    ∧ (createDeploymentMsg d creator).meta.creator = creator :=
  ⟨rfl, rfl, rfl, rfl⟩

/-- C6: both message builders attach a payload iff the request carries a
file; a present payload is a ZIP archive of the file's bytes; an absent
file leaves the payload field omitted. -/
theorem deploymentMsg_payload_iff_file (d : DeploymentData)
    (creator : String) :
    ((createDeploymentMsg d creator).payload.isSome ↔ d.file.isSome)
    ∧ ((updateDeploymentMsg d creator).payload.isSome ↔ d.file.isSome)
    ∧ (∀ f : File, d.file = some f →
        (createDeploymentMsg d creator).payload
          = some { archive :=
              { type := ArchiveType.Zip, content := fileToArrayBuffer f } }
        ∧ (updateDeploymentMsg d creator).payload
          = some { archive :=
              { type := ArchiveType.Zip, content := fileToArrayBuffer f } })
    ∧ (d.file = none →
        (createDeploymentMsg d creator).payload = none
        ∧ (updateDeploymentMsg d creator).payload = none) := by
  refine ⟨?_, ?_, ?_, ?_⟩
  · rcases hf : d.file with _ | f <;> simp [createDeploymentMsg, hf]
  · rcases hf : d.file with _ | f <;> simp [updateDeploymentMsg, hf]
  · intro f hf
    exact ⟨by simp [createDeploymentMsg, hf],
           by simp [updateDeploymentMsg, hf]⟩
  · intro hf
    exact ⟨by simp [createDeploymentMsg, hf],
           by simp [updateDeploymentMsg, hf]⟩

/-- Witness for C6 at a concrete request carrying a two-byte file. -/
theorem deploymentMsg_payload_iff_file_witness :
    (createDeploymentMsg
        { name := "n", description := "d", domain := "dom", memo := "m",
          file := some { bytes := [1, 2] } } "c").payload
      = some { archive := { type := ArchiveType.Zip, content := [1, 2] } } :=
  ((deploymentMsg_payload_iff_file
      { name := "n", description := "d", domain := "dom", memo := "m",
        file := some { bytes := [1, 2] } } "c").2.2.1
    { bytes := [1, 2] } rfl).1

/-- C7: the deployment URL composer returns exactly
{scheme}://{name}-{address}.{domain}, and at the spec's example inputs
produces the spec's example output. -/
theorem createUrl_format :
    (∀ (cfg : UrlConfig) (name address : String),
      createUrl cfg name address
        = cfg.urlScheme ++ "://" ++ name ++ "-" ++ address ++ "."
            ++ cfg.urlDomain)
    ∧ createUrl { urlScheme := "https", urlDomain := "example.com" }
        "myapp" "cosmos1abc..."
        = "https://myapp-cosmos1abc....example.com" :=
  ⟨fun _ _ _ => rfl, rfl⟩

/-- C1: for each write operation the "metas" cache key is invalidated
exactly once when the broadcast succeeds with response code zero, and
never when the operation fails at any stage (empty data, missing
creator, connection failure, or non-zero response code): the
invalidation count equals 1 iff the write succeeded, else 0. -/
theorem metas_invalidation_iff_write_success (env : WriteEnv)
    (d : DeploymentData) (nm : String) :
    ((useCreateDeployment env (some d)).invalidatedMetas
      = if env.address ≠ "" ∧ env.connectOk = true ∧ env.response.code = 0
        then 1 else 0)
    ∧ ((useUpdateDeployment env (some d)).invalidatedMetas
      = if env.address ≠ "" ∧ env.connectOk = true ∧ env.response.code = 0
        then 1 else 0)
    ∧ ((useRemoveDeployment env nm).invalidatedMetas
      = if env.address ≠ "" ∧ env.connectOk = true ∧ env.response.code = 0
        then 1 else 0)
    ∧ (useCreateDeployment env none).invalidatedMetas = 0
    ∧ (useUpdateDeployment env none).invalidatedMetas = 0 := by
  by_cases h1 : env.address = "" <;>
    by_cases h2 : env.connectOk = false <;>
      by_cases h3 : env.response.code = 0 <;>
        simp [useCreateDeployment, useUpdateDeployment, useRemoveDeployment,
          create, update, remove, runWithMetasInvalidation, h1, h2, h3]

/-- C2: for each write operation, a non-zero remote response code fails
the operation with an error message carrying the remote code and the
remote rawLog verbatim, while a zero code succeeds and returns the
remote response itself. -/
theorem write_outcome_by_response_code (env : WriteEnv)
    (d : DeploymentData) (nm : String)
    (haddr : env.address ≠ "") (hconn : env.connectOk = true) :
    (env.response.code ≠ 0 →
      (create env (some d)).1 = Except.error (TxError.thrown
          ("Deployment creation failed with error code: "
            ++ toString env.response.code
            ++ ". Raw log: " ++ env.response.rawLog))
      ∧ (update env (some d)).1 = Except.error (TxError.thrown
          ("Deployment update failed with error code: "
            ++ toString env.response.code
            ++ ". Raw log: " ++ env.response.rawLog))
      ∧ (remove env nm).1 = Except.error (TxError.thrown
          ("Deployment update failed with error code: "
            ++ toString env.response.code
            ++ ". Raw log: " ++ env.response.rawLog)))
    ∧ (env.response.code = 0 →
      (create env (some d)).1 = Except.ok env.response
      ∧ (update env (some d)).1 = Except.ok env.response
      ∧ (remove env nm).1 = Except.ok env.response) := by
  constructor
  · intro hcode
    exact ⟨by simp [create, haddr, hconn, hcode],
           by simp [update, haddr, hconn, hcode],
           by simp [remove, haddr, hconn, hcode]⟩
  · intro hcode
    exact ⟨by simp [create, haddr, hconn, hcode],
           by simp [update, haddr, hconn, hcode],
           by simp [remove, haddr, hconn, hcode]⟩

/-- Witness for C2: a rejection with code 5 / rawLog "not found"
produces the composed error message, and a code-0 response is returned
as is. -/
theorem write_outcome_by_response_code_witness :
    ((create ⟨"cosmos1xyz", true, 5, "not found", "AB"⟩
        (some ⟨"n", "d", "dom", "m", none⟩)).1
      = Except.error (TxError.thrown
          ("Deployment creation failed with error code: 5. Raw log: not found")))
    ∧ ((create ⟨"cosmos1xyz", true, 0, "", "AB"⟩
        (some ⟨"n", "d", "dom", "m", none⟩)).1
      = Except.ok ⟨0, "", "AB"⟩) := by
  constructor
  · exact ((write_outcome_by_response_code
      ⟨"cosmos1xyz", true, 5, "not found", "AB"⟩
      ⟨"n", "d", "dom", "m", none⟩ "x"
      (by decide) rfl).1 (by decide)).1
  · exact ((write_outcome_by_response_code
      ⟨"cosmos1xyz", true, 0, "", "AB"⟩
      ⟨"n", "d", "dom", "m", none⟩ "x"
      (by decide) rfl).2 rfl).1

/-- C3: an empty resolved creator address fails each write operation
with the missing-creator error before any signing connection is created
or any message is broadcast. -/
theorem missing_creator_no_network (env : WriteEnv) (d : DeploymentData)
    (nm : String) (h : env.address = "") :
    ((create env (some d)).1
        = Except.error (TxError.thrown ("Creator address is empty."))
      ∧ (create env (some d)).2
        = { connAttempted := false, broadcasted := false })
    ∧ ((update env (some d)).1
        = Except.error (TxError.thrown ("Creator address is empty."))
      ∧ (update env (some d)).2
        = { connAttempted := false, broadcasted := false })
    ∧ ((remove env nm).1
        = Except.error (TxError.thrown ("Creator address is empty."))
      ∧ (remove env nm).2
        = { connAttempted := false, broadcasted := false }) := by
  refine ⟨⟨?_, ?_⟩, ⟨?_, ?_⟩, ⟨?_, ?_⟩⟩ <;>
    simp [create, update, remove, h]

/-- Witness for C3 at a concrete environment with an empty address. -/
theorem missing_creator_no_network_witness :
    ((create ⟨"", true, 0, "", ""⟩
        (some ⟨"n", "d", "dom", "m", none⟩)).1
      = Except.error (TxError.thrown ("Creator address is empty.")))
    ∧ ((remove ⟨"", true, 0, "", ""⟩ "site1").2
      = ⟨false, false⟩) :=
  ⟨(missing_creator_no_network ⟨"", true, 0, "", ""⟩
      ⟨"n", "d", "dom", "m", none⟩ "site1" rfl).1.1,
   (missing_creator_no_network ⟨"", true, 0, "", ""⟩
      ⟨"n", "d", "dom", "m", none⟩ "site1" rfl).2.2.2⟩

/-- C8: with a non-empty configured creator address, the metas query is
issued with exactly one filter, whose field is CREATOR, whose operator
is EQUAL and whose value is that address. -/
theorem listMetas_single_creator_filter (env : QueryEnv)
    (h : env.address ≠ "") :
    (listMetas env).2.sentRequest
      = some { filters :=
          [{ field := Filter_Field.CREATOR,
             operator := Filter_Operator.EQUAL,
             value := env.address }] } := by
  rcases hq : env.queryOk <;> simp [listMetas, h, hq]

/-- Witness for C8 at a concrete address. -/
theorem listMetas_single_creator_filter_witness :
    (listMetas ⟨"cosmos1abc", true, ⟨[]⟩⟩).2.sentRequest
      = some { filters :=
          [{ field := Filter_Field.CREATOR,
             operator := Filter_Operator.EQUAL,
             value := "cosmos1abc" }] } :=
  listMetas_single_creator_filter ⟨"cosmos1abc", true, ⟨[]⟩⟩ (by decide)

/-- C9: with no configured creator address, the metas query function
resolves successfully with an undefined result and performs no network
call, rather than failing with any error. -/
theorem listMetas_empty_address_no_call (env : QueryEnv)
    (h : env.address = "") :
    (listMetas env).1 = Except.ok none
    ∧ (listMetas env).2.networkCalled = false := by
  simp [listMetas, h]

/-- Witness for C9 at the empty address. -/
theorem listMetas_empty_address_no_call_witness :
    (listMetas ⟨"", true, ⟨[]⟩⟩).1 = Except.ok none
    ∧ (listMetas ⟨"", true, ⟨[]⟩⟩).2.networkCalled = false :=
  listMetas_empty_address_no_call ⟨"", true, ⟨[]⟩⟩ rfl

/-- C10: a rejected removal throws the "Deployment update failed with
error code:" message — the removal's error string is identical to the
one a rejected update with the same response produces, and carries that
update-flavoured leading text. -/
theorem remove_rejection_reuses_update_message (env : WriteEnv)
    (d : DeploymentData) (nm : String) (haddr : env.address ≠ "")
    (hconn : env.connectOk = true) (hcode : env.response.code ≠ 0) :
    (remove env nm).1 = Except.error (TxError.thrown
        ("Deployment update failed with error code: "
          ++ toString env.response.code
          ++ ". Raw log: " ++ env.response.rawLog))
    ∧ (remove env nm).1 = (update env (some d)).1
    ∧ ("Deployment update failed with error code:").data
        <+: ("Deployment update failed with error code: "
          ++ toString env.response.code
          ++ ". Raw log: " ++ env.response.rawLog).data := by
  refine ⟨by simp [remove, haddr, hconn, hcode],
          by simp [remove, update, haddr, hconn, hcode], ?_⟩
  rw [String.data_append, String.data_append, String.data_append]
  calc ("Deployment update failed with error code:").data
      <+: ("Deployment update failed with error code: ").data := by decide
    _ <+: ("Deployment update failed with error code: ").data
            ++ ((toString env.response.code).data
                ++ (". Raw log: ").data ++ env.response.rawLog.data) :=
          List.prefix_append _ _
    _ = ("Deployment update failed with error code: ").data
            ++ (toString env.response.code).data
            ++ (". Raw log: ").data ++ env.response.rawLog.data := by
          simp [List.append_assoc]

/-- Witness for C10: a concrete rejected removal (code 5, rawLog
"not found") and the update rejection at the same response. -/
theorem remove_rejection_reuses_update_message_witness :
    (remove ⟨"cosmos1xyz", true, 5, "not found", "AB"⟩ "site1").1
      = Except.error (TxError.thrown
          ("Deployment update failed with error code: 5. Raw log: not found"))
    ∧ (remove ⟨"cosmos1xyz", true, 5, "not found", "AB"⟩ "site1").1
      = (update ⟨"cosmos1xyz", true, 5, "not found", "AB"⟩
          (some ⟨"n", "d", "dom", "m", none⟩)).1 :=
  ⟨(remove_rejection_reuses_update_message
      ⟨"cosmos1xyz", true, 5, "not found", "AB"⟩
      ⟨"n", "d", "dom", "m", none⟩ "site1"
      (by decide) rfl (by decide)).1,
   (remove_rejection_reuses_update_message
      ⟨"cosmos1xyz", true, 5, "not found", "AB"⟩
      ⟨"n", "d", "dom", "m", none⟩ "site1"
      (by decide) rfl (by decide)).2.1⟩

/-- C4: pagination clamps out-of-range pages — a requested page below 1
returns the first page's content, a requested page above the total page
count returns the last page's content, and (the pagination function
being total) no out-of-range page raises an error. -/
theorem listDeploymentsPage_clamps (pageSize : Nat)
    (items : List DeploymentMeta) (page : Int) :
    (page < 1 →
      listDeploymentsPage pageSize items page
        = pageContent pageSize items 1)
    ∧ (Int.ofNat (totalPageCount pageSize items) < page →
      listDeploymentsPage pageSize items page
        = pageContent pageSize items (totalPageCount pageSize items)) := by
  have htot : 1 ≤ totalPageCount pageSize items := le_max_left 1 _
  constructor
  · intro hlt
    have h1 :
        (max 1 (min page (Int.ofNat (totalPageCount pageSize items)))).toNat
          = 1 := by omega
    simp only [listDeploymentsPage]
    rw [h1]
  · intro hgt
    have h2 :
        (max 1 (min page (Int.ofNat (totalPageCount pageSize items)))).toNat
          = totalPageCount pageSize items := by
      simp only [Int.ofNat_eq_coe] at hgt ⊢
      omega
    simp only [listDeploymentsPage]
    rw [h2]

/-- Witness for C4 on a three-item result set with page size 2
(so two pages): page 0 yields page 1's content, page 5 yields page 2's
content. -/
theorem listDeploymentsPage_clamps_witness :
    listDeploymentsPage 2
        [⟨"c", "n1", "d1", "dom1"⟩, ⟨"c", "n2", "d2", "dom2"⟩,
         ⟨"c", "n3", "d3", "dom3"⟩] 0
      = pageContent 2
        [⟨"c", "n1", "d1", "dom1"⟩, ⟨"c", "n2", "d2", "dom2"⟩,
         ⟨"c", "n3", "d3", "dom3"⟩] 1
    ∧ listDeploymentsPage 2
        [⟨"c", "n1", "d1", "dom1"⟩, ⟨"c", "n2", "d2", "dom2"⟩,
         ⟨"c", "n3", "d3", "dom3"⟩] 5
      = pageContent 2
        [⟨"c", "n1", "d1", "dom1"⟩, ⟨"c", "n2", "d2", "dom2"⟩,
         ⟨"c", "n3", "d3", "dom3"⟩] 2 :=
  ⟨(listDeploymentsPage_clamps 2
      [⟨"c", "n1", "d1", "dom1"⟩, ⟨"c", "n2", "d2", "dom2"⟩,
       ⟨"c", "n3", "d3", "dom3"⟩] 0).1 (by decide),
   (listDeploymentsPage_clamps 2
      [⟨"c", "n1", "d1", "dom1"⟩, ⟨"c", "n2", "d2", "dom2"⟩,
       ⟨"c", "n3", "d3", "dom3"⟩] 5).2 (by decide)⟩

end Ghostcloud
